import Mathlib

/-!
Verification of the betachip screen-censoring pipeline.

The definitions below are a shallow embedding of the Python sources:
`src/capture/mss_capture.py` (screen capture, exclusion masking, frame
queue, capture thread, `get_frame`), `src/detection/mosaic_processor.py`
(`apply_mosaic`, per-detection mosaic application), `src/main.py`
(processing loop, `stop_censoring`) and `src/overlay/pygame_overlay.py`
(`show`/`hide`, the topmost watchdog and the activation hook).
Pixel buffers are modelled as functions from coordinates to `Nat` values,
machine integers as `Nat`/`Int`, raised exceptions as `Option`/failure
branches, and the OS calls issued by the protection machinery as an
explicit call list.
-/

namespace Betachip

/-- A numpy image buffer: `height × width × channels`, 8-bit values
modelled as `Nat`.  `px row col chan` is the value at that coordinate. -/
structure Image where
  height : Nat
  width : Nat
  channels : Nat
  px : Nat → Nat → Nat → Nat

/-- numpy's `ndarray.size`: the total number of elements. -/
def Image.size (img : Image) : Nat :=
  img.height * img.width * img.channels

/-- A concrete 4×4 3-channel test frame whose pixels all hold the value 1. -/
def onesImg : Image :=
  { height := 4, width := 4, channels := 3, px := fun _ _ _ => 1 }

/-! ### cv2.resize

`cv2.resize(img, (tw, th), interpolation)` produces a `th × tw` image.
The library is external to the repository; the pixel computations below
follow OpenCV's documented source-coordinate mappings
(`INTER_NEAREST`: `src = floor(dst * scale)`; `INTER_LINEAR`: bilinear
around `src = (dst + 0.5) * scale - 0.5`, here in exact integer
arithmetic with denominator `2 * target`). -/

/-- Interpolation modes used by the repository. -/
inductive Interp where
  | linear
  | nearest
deriving DecidableEq

/-- Source indices and blend weight for one axis of a bilinear resize from
`n` source samples to `m` target samples, at target index `i`:
`(lowIdx, highIdx, fracNumerator, denominator)`. -/
def lerpIdx (n m i : Nat) : Nat × Nat × Nat × Nat :=
  let den := 2 * m
  let num : Int := (2 * i + 1) * n - m
  if num ≤ 0 then (0, 0, 0, den)
  else
    let t := num.toNat
    (min (t / den) (n - 1), min (t / den + 1) (n - 1), t % den, den)

/-- Bilinear sample of `img` at target coordinate `(i, j)` for a resize to
`tw × th`. -/
def resizeLinearPx (img : Image) (tw th i j c : Nat) : Nat :=
  let ry := lerpIdx img.height th i
  let rx := lerpIdx img.width tw j
  let top := img.px ry.1 rx.1 c * (rx.2.2.2 - rx.2.2.1) + img.px ry.1 rx.2.1 c * rx.2.2.1
  let bot := img.px ry.2.1 rx.1 c * (rx.2.2.2 - rx.2.2.1) + img.px ry.2.1 rx.2.1 c * rx.2.2.1
  (top * (ry.2.2.2 - ry.2.2.1) + bot * ry.2.2.1) / (rx.2.2.2 * ry.2.2.2)

/-- `cv2.resize` to target width `tw` and height `th`. -/
def cv2resize (interp : Interp) (img : Image) (tw th : Nat) : Image :=
  { height := th
    width := tw
    channels := img.channels
    px := fun i j c =>
      match interp with
      | .nearest => img.px (i * img.height / th) (j * img.width / tw) c
      | .linear => resizeLinearPx img tw th i j c }

/-! ### MosaicProcessor.apply_mosaic (src/detection/mosaic_processor.py, lines 128-151) -/

/-- Python floor division `a // b`; `none` models the `ZeroDivisionError`
raised when `b = 0`. -/
def pyFloorDiv (a : Nat) (b : Int) : Option Int :=
  if b = 0 then none else some (Int.fdiv a b)

/-- The `try` body of `apply_mosaic`: compute `small_h = max(1, h // strength)`
and `small_w = max(1, w // strength)`, downscale with `INTER_LINEAR`, then
upscale back to `(w, h)` with `INTER_NEAREST`.  `none` models a raised
exception (division by a zero strength). -/
def applyMosaicBody (image : Image) (strength : Int) : Option Image := do
  let hs ← pyFloorDiv image.height strength
  let ws ← pyFloorDiv image.width strength
  let small_h := max 1 hs
  let small_w := max 1 ws
  pure (cv2resize .nearest
          (cv2resize .linear image small_w.toNat small_h.toNat)
          image.width image.height)

/-- `MosaicProcessor.apply_mosaic`: zero-size images are returned as they
are; otherwise the mosaic body runs and any exception is caught, returning
the input unchanged. -/
def apply_mosaic (image : Image) (strength : Int) : Image :=
  if image.size = 0 then image
  else
    match applyMosaicBody image strength with
    | some m => m
    | none => image

/-! ### Exclusion-region masking (src/capture/mss_capture.py, lines 204-215) -/

/-- Effective index of a Python slice bound `a` on an axis of length `n`:
negative bounds count from the end, and bounds are clipped to `[0, n]`. -/
def sliceIdx (n : Nat) (a : Int) : Nat :=
  if a < 0 then ((n : Int) + a).toNat else min a.toNat n

/-- Masking of one exclusion region `(x, y, w, h)` inside `_capture_screen`:
if the region's top-left corner passes the validity check
(`x >= 0 and y >= 0 and x < img.shape[1] and y < img.shape[0]`), the
numpy slice `img[y:min(y+h,H), x:min(x+w,W)]` is set to zero; otherwise
the frame is left untouched. -/
def maskRegion (img : Image) (r : Int × Int × Int × Int) : Image :=
  let x := r.1
  let y := r.2.1
  let w := r.2.2.1
  let h := r.2.2.2
  if 0 ≤ x ∧ 0 ≤ y ∧ x < (img.width : Int) ∧ y < (img.height : Int) then
    let endX := min (x + w) (img.width : Int)
    let endY := min (y + h) (img.height : Int)
    { img with px := fun i j c =>
        if sliceIdx img.height y ≤ i ∧ i < sliceIdx img.height endY ∧
           sliceIdx img.width x ≤ j ∧ j < sliceIdx img.width endX
        then 0 else img.px i j c }
  else img

/-- The exclusion-masking loop of `_capture_screen` over all configured
regions. -/
def maskExcludeRegions (img : Image) (regions : List (Int × Int × Int × Int)) : Image :=
  regions.foldl maskRegion img

/-! ### FrameQueue push (src/capture/mss_capture.py, lines 129-138)

`queue.Queue(maxsize=cap)`: `full()` holds when `0 < cap ≤ len`;
the capture thread pops one entry when full, then `put(frame, block=False)`
(whose `queue.Full` exception is swallowed, leaving the queue unchanged). -/

/-- The non-blocking drop-oldest push performed by the capture thread. -/
def pushDropOldest {α : Type} (cap : Nat) (q : List α) (f : α) : List α :=
  let q' := if 0 < cap ∧ cap ≤ q.length then q.drop 1 else q
  if 0 < cap ∧ cap ≤ q'.length then q' else q' ++ [f]

/-! ### Capture thread loop body (src/capture/mss_capture.py, lines 106-153) -/

/-- Outcome of one `_capture_screen` attempt inside the capture thread:
a frame, a `None` return, or a raised exception. -/
inductive CaptureOutcome where
  | ok (f : Image)
  | failed
  | exc

/-- State carried across capture-thread iterations. -/
structure CaptureThreadState where
  queue : List Image
  retryCount : Nat

/-- One iteration of `_capture_thread_func` after the rate-limit check:
on a frame, push (drop-oldest) and reset the retry counter; on a `None`
return, increment the counter and back off (reset + sleep 0.1 s) only
once the counter exceeds 5; on an exception, increment (resetting past 5)
and sleep 0.1 s unconditionally.  The returned `Bool` records whether the
iteration slept the ~100 ms backoff; no outcome terminates the loop. -/
def captureStep (cap : Nat) (st : CaptureThreadState) (r : CaptureOutcome) :
    CaptureThreadState × Bool :=
  match r with
  | .ok f => ({ queue := pushDropOldest cap st.queue f, retryCount := 0 }, false)
  | .failed =>
    if st.retryCount + 1 > 5 then ({ st with retryCount := 0 }, true)
    else ({ st with retryCount := st.retryCount + 1 }, false)
  | .exc =>
    ({ st with retryCount := if st.retryCount + 1 > 5 then 0 else st.retryCount + 1 }, true)

/-- Run of the capture thread over a finite sequence of capture outcomes,
returning the final state and the per-iteration backoff trace. -/
def runCapture (cap : Nat) (st : CaptureThreadState) :
    List CaptureOutcome → CaptureThreadState × List Bool
  | [] => (st, [])
  | r :: rs =>
    let step := captureStep cap st r
    let rest := runCapture cap step.1 rs
    (rest.1, step.2 :: rest.2)

/-! ### get_frame (src/capture/mss_capture.py, lines 236-265) -/

/-- Result of `frame_queue.get(block=True, timeout=0.1)`: a frame, the
`queue.Empty` timeout, or some other exception. -/
inductive QueueGet where
  | frame (f : Image)
  | empty
  | err

/-- The capturer state that `get_frame` reads and writes: the last frame
successfully retrieved from the queue (`self.prev_frame`). -/
structure CapturerState where
  prevFrame : Option Image

/-- `get_frame`: on a queue hit, store and return the frame; on
`queue.Empty`, return `prev_frame` if set, else the result of a direct
synchronous `_capture_screen` call (which may itself be `None` and is not
stored); on any other exception, return `prev_frame` if set, else `None`. -/
def get_frame (st : CapturerState) (q : QueueGet) (direct : Option Image) :
    Option Image × CapturerState :=
  match q with
  | .frame f => (some f, { prevFrame := some f })
  | .empty =>
    match st.prevFrame with
    | some p => (some p, st)
    | none => (direct, st)
  | .err =>
    match st.prevFrame with
    | some p => (some p, st)
    | none => (none, st)

/-! ### Processing-loop mosaic application (src/main.py, lines 580-615) -/

/-- One detection as produced by `detect_objects`: a class name and a
bounding box `[x1, y1, x2, y2]` in pixel coordinates. -/
structure Detection where
  className : String
  x1 : Nat
  y1 : Nat
  x2 : Nat
  y2 : Nat

/-- The numpy sub-image `frame[y1:y2, x1:x2]` (bounds clipped to the
frame as Python slices do). -/
def subRegion (frame : Image) (x1 y1 x2 y2 : Nat) : Image :=
  { height := min y2 frame.height - min y1 frame.height
    width := min x2 frame.width - min x1 frame.width
    channels := frame.channels
    px := fun i j c => frame.px (min y1 frame.height + i) (min x1 frame.width + j) c }

/-- The numpy slice assignment `frame[y1:y2, x1:x2] = sub`. -/
def writeRegion (frame sub : Image) (x1 y1 x2 y2 : Nat) : Image :=
  { frame with px := fun i j c =>
      if (min y1 frame.height ≤ i ∧ i < min y2 frame.height ∧
          min x1 frame.width ≤ j ∧ j < min x2 frame.width)
      then sub.px (i - min y1 frame.height) (j - min x1 frame.width) c
      else frame.px i j c }

/-- The per-detection body of the processing loop: slice the bounding box
out of the working frame and, when the region is non-empty, write back its
mosaic. -/
def mosaicDetection (frame : Image) (d : Detection) (strength : Int) : Image :=
  if (subRegion frame d.x1 d.y1 d.x2 d.y2).size ≠ 0 then
    writeRegion frame (apply_mosaic (subRegion frame d.x1 d.y1 d.x2 d.y2) strength)
      d.x1 d.y1 d.x2 d.y2
  else frame

/-- The mosaic pass of one `processing_loop` iteration: starting from a
copy of the captured frame, apply the mosaic to every detection whose
class name is in the target set, then hand the result to the overlay. -/
def processFrame (frame : Image) (dets : List Detection) (targets : List String)
    (strength : Int) : Image :=
  dets.foldl
    (fun acc d => if d.className ∈ targets then mosaicDetection acc d strength else acc)
    frame

/-! ### Overlay window lifecycle (src/overlay/pygame_overlay.py) -/

/-- The mutable flags of `PygameOverlayWindow` that `show`/`hide` and the
protection sequence touch. -/
structure OverlayState where
  isVisible : Bool
  isRunning : Bool
  forceTopmost : Bool
  hookInstalled : Bool
  keeperRunning : Bool
  displayRunning : Bool
deriving DecidableEq

/-- A freshly constructed overlay (`__init__`): everything off. -/
def initialOverlay : OverlayState :=
  { isVisible := false, isRunning := false, forceTopmost := false,
    hookInstalled := false, keeperRunning := false, displayRunning := false }

/-- `set_window_click_through_and_capture_protected` (lines 131-232), at the
granularity of the modelled flags: enable forced-topmost mode, install the
activation hook (success depends on the OS, `hookOk`), and start the
topmost-keeper thread.  OS style/affinity calls have no modelled state and
their errors are swallowed by the source. -/
def protectWindow (hookOk : Bool) (ov : OverlayState) : OverlayState :=
  { ov with forceTopmost := true, hookInstalled := hookOk, keeperRunning := true }

/-- `init_pygame` (lines 80-129): pygame window creation may fail
(`createOk`), in which case `False` is returned and no state changes; on
success, the protection sequence runs when win32 is available, and `True`
is returned. -/
def init_pygame (createOk hasWin32 hookOk : Bool) (ov : OverlayState) :
    Bool × OverlayState :=
  if createOk then (true, if hasWin32 then protectWindow hookOk ov else ov)
  else (false, ov)

/-- `show` (lines 451-472): `None` (no result) when already visible;
otherwise run `init_pygame`, return `False` on failure, and on success
mark the overlay visible and running, start the display thread and return
`True`. -/
def showOverlay (createOk hasWin32 hookOk : Bool) (ov : OverlayState) :
    Option Bool × OverlayState :=
  if ov.isVisible then (none, ov)
  else
    let r := init_pygame createOk hasWin32 hookOk ov
    if r.1 then
      (some true, { r.2 with isVisible := true, isRunning := true, displayRunning := true })
    else (some false, r.2)

/-- `hide` (lines 474-503): a no-op when not visible; otherwise clear the
visible/running/forced-topmost flags, uninstall the hook, stop the
topmost keeper and join the display thread. -/
def hideOverlay (ov : OverlayState) : OverlayState :=
  if ov.isVisible then
    { ov with isVisible := false, isRunning := false, forceTopmost := false,
              hookInstalled := false, keeperRunning := false, displayRunning := false }
  else ov

/-! ### Orchestrator stop (src/main.py, lines 534-555) -/

/-- The application state touched by `stop_censoring`. -/
structure AppState where
  isRunning : Bool
  overlay : OverlayState
  statusText : String
  startEnabled : Bool
  stopEnabled : Bool
deriving DecidableEq

/-- `stop_censoring`: returns immediately when not running; otherwise
clears the running flag, hides the overlay, joins the processing thread
and updates the GUI controls. -/
def stop_censoring (s : AppState) : AppState :=
  if s.isRunning then
    { s with isRunning := false, overlay := hideOverlay s.overlay,
             statusText := "⭕ 대기 중", startEnabled := true, stopEnabled := false }
  else s

/-! ### Topmost enforcement (src/overlay/pygame_overlay.py, lines 280-449)

The watchdog thread and the CBT activation hook keep the overlay's
z-order on top by issuing Win32 calls.  Each call the source makes is
recorded explicitly. -/

def SWP_NOSIZE : Nat := 0x0001
def SWP_NOMOVE : Nat := 0x0002
def SWP_NOREDRAW : Nat := 0x0008
def SWP_NOACTIVATE : Nat := 0x0010
def HWND_TOPMOST : Int := -1
def HWND_TOP : Int := 0
def HCBT_ACTIVATE : Int := 5

/-- A Win32 z-order call issued by the protection machinery. -/
inductive Win32Call where
  | setWindowPos (hwnd : Int) (insertAfter : Int) (flags : Nat)
  | bringWindowToTop (hwnd : Int)
deriving DecidableEq

/-- `_force_to_topmost` (lines 416-449), called from the watchdog thread:
`SetWindowPos(HWND_TOPMOST, NOMOVE|NOSIZE|NOACTIVATE)`, then
`BringWindowToTop`, then `SetWindowPos(HWND_TOP, NOMOVE|NOSIZE|NOACTIVATE)`. -/
def forceToTopmost (hwnd : Int) : List Win32Call :=
  [ .setWindowPos hwnd HWND_TOPMOST (SWP_NOMOVE ||| SWP_NOSIZE ||| SWP_NOACTIVATE),
    .bringWindowToTop hwnd,
    .setWindowPos hwnd HWND_TOP (SWP_NOMOVE ||| SWP_NOSIZE ||| SWP_NOACTIVATE) ]

/-- `_instant_force_topmost` (lines 339-362), called from the activation
hook: two `SetWindowPos` calls, both with `SWP_NOACTIVATE | SWP_NOREDRAW`. -/
def instantForceTopmost (hwnd : Int) : List Win32Call :=
  [ .setWindowPos hwnd HWND_TOPMOST
      (SWP_NOMOVE ||| SWP_NOSIZE ||| SWP_NOACTIVATE ||| SWP_NOREDRAW),
    .setWindowPos hwnd HWND_TOP
      (SWP_NOMOVE ||| SWP_NOSIZE ||| SWP_NOACTIVATE ||| SWP_NOREDRAW) ]

/-- One iteration of `_topmost_keeper_loop` (lines 381-414): read the
foreground window; if it differs from the overlay's handle, run
`_force_to_topmost`, else do nothing. -/
def topmostKeeperStep (hwnd foreground : Int) : List Win32Call :=
  if foreground ≠ hwnd then forceToTopmost hwnd else []

/-- `activation_hook_proc` (lines 287-304): when the hook code is
non-negative, forced-topmost mode is on, the event is `HCBT_ACTIVATE` and
the window about to activate is not the overlay, run
`_instant_force_topmost` before passing the event down the hook chain. -/
def activationHookStep (hwnd : Int) (forceTopmost : Bool) (nCode wParam : Int) :
    List Win32Call :=
  if 0 ≤ nCode ∧ forceTopmost = true ∧ nCode = HCBT_ACTIVATE ∧ wParam ≠ hwnd then
    instantForceTopmost hwnd
  else []

/-- Modelled from the Win32 documentation (the OS, external to the
repository): `SetWindowPos` activates the target window unless the
`SWP_NOACTIVATE` flag is passed, and `BringWindowToTop` activates a
top-level window. -/
def callActivates : Win32Call → Bool
  | .setWindowPos _ _ flags => flags &&& SWP_NOACTIVATE == 0
  | .bringWindowToTop _ => true

/-- Whether a call re-establishes the overlay's topmost z-order. -/
def callAssertsTopmost (hwnd : Int) : Win32Call → Bool
  | .setWindowPos h insertAfter _ => h == hwnd && insertAfter == HWND_TOPMOST
  | .bringWindowToTop _ => false

/-! ## Theorems -/

/-- C2: a push by the capture thread never blocks (it is a total
function); when the queue is full it evicts exactly the single oldest
entry before inserting, otherwise it simply appends; and over any
sequence of pushes the queue never exceeds its configured capacity. -/
theorem frame_queue_drop_oldest {α : Type} (cap : Nat) (hcap : 0 < cap) :
    (∀ (q : List α) (f : α), q.length ≤ cap →
        (pushDropOldest cap q f).length ≤ cap ∧
        (cap ≤ q.length → pushDropOldest cap q f = q.drop 1 ++ [f]) ∧
        (q.length < cap → pushDropOldest cap q f = q ++ [f])) ∧
    (∀ (fs : List α) (q : List α), q.length ≤ cap →
        (fs.foldl (pushDropOldest cap) q).length ≤ cap) := by
  have hpush : ∀ (q : List α) (f : α), q.length ≤ cap →
      pushDropOldest cap q f = if cap ≤ q.length then q.drop 1 ++ [f] else q ++ [f] := by
    intro q f hlen
    simp only [pushDropOldest]
    split_ifs <;>
      first
        | rfl
        | (exfalso; simp only [List.length_drop] at *; omega)
  have hlen : ∀ (q : List α) (f : α), q.length ≤ cap →
      (pushDropOldest cap q f).length ≤ cap := by
    intro q f hl
    rw [hpush q f hl]
    split_ifs <;> simp only [List.length_append, List.length_drop, List.length_cons,
      List.length_nil] <;> omega
  refine ⟨fun q f hl => ⟨hlen q f hl, ?_, ?_⟩, ?_⟩
  · intro hfull
    rw [hpush q f hl, if_pos hfull]
  · intro hlt
    rw [hpush q f hl, if_neg (by omega)]
  · intro fs
    induction fs with
    | nil => intro q hl; simpa using hl
    | cons f fs ih =>
      intro q hl
      simpa using ih (pushDropOldest cap q f) (hlen q f hl)

/-- C2 witness: pushing three frames through a capacity-2 queue leaves at
most two entries. -/
theorem frame_queue_drop_oldest_witness :
    (([1, 2, 3] : List Nat).foldl (pushDropOldest 2) []).length ≤ 2 :=
  (frame_queue_drop_oldest 2 (by decide)).2 [1, 2, 3] [] (by decide)

/-- Length of the backoff trace of a capture-thread run: one entry per
processed capture outcome (the loop never terminates on an error). -/
theorem runCapture_trace_length {cap : Nat} :
    ∀ (rs : List CaptureOutcome) (st : CaptureThreadState),
      (runCapture cap st rs).2.length = rs.length := by
  intro rs
  induction rs with
  | nil => intro st; rfl
  | cons r rs ih => intro st; simp [runCapture, ih]

/-- C7 counterexample: starting from a zero retry counter, five
consecutive failed captures leave the counter at 5 and trigger no ~100 ms
backoff sleep, contrary to "after 5 consecutive failures the loop backs
off ... and resets the counter to zero". -/
theorem capture_retry_counterexample :
    (runCapture 2 ⟨[], 0⟩ [.failed, .failed, .failed, .failed, .failed]).1.retryCount = 5 ∧
    (runCapture 2 ⟨[], 0⟩ [.failed, .failed, .failed, .failed, .failed]).2 =
      [false, false, false, false, false] := by
  constructor <;> rfl

/-- C7 (amended): each capture failure increments the retry counter, and
the counter is reset to zero exactly when it would exceed 5 — that is, on
the sixth consecutive failure; the `None`-return path sleeps ~100 ms
exactly then, while the exception path sleeps ~100 ms on every failure; a
successful capture resets the counter; and the loop processes every
outcome without terminating. -/
theorem capture_retry_amended (cap : Nat) (st : CaptureThreadState) (r : CaptureOutcome) :
    (∀ f, r = .ok f →
      (captureStep cap st r).1.retryCount = 0 ∧ (captureStep cap st r).2 = false) ∧
    (r = .failed ∨ r = .exc →
      (captureStep cap st r).1.retryCount =
        if st.retryCount + 1 > 5 then 0 else st.retryCount + 1) ∧
    (r = .failed → ((captureStep cap st r).2 = true ↔ st.retryCount + 1 > 5)) ∧
    (r = .exc → (captureStep cap st r).2 = true) ∧
    (∀ rs, (runCapture cap st rs).2.length = rs.length) := by
  refine ⟨?_, ?_, ?_, ?_, fun rs => runCapture_trace_length rs st⟩ <;>
    cases r <;> simp [captureStep] <;> split_ifs <;> simp_all

/-- C7 amended witness: on the sixth consecutive failure (counter at 5)
the counter resets to zero. -/
theorem capture_retry_amended_witness :
    (captureStep 2 ⟨[], 5⟩ .failed).1.retryCount = 0 := by
  have h := (capture_retry_amended 2 ⟨[], 5⟩ .failed).2.1 (Or.inl rfl)
  simpa using h

/-- C3 counterexample: with no prior frame, a first `get_frame` call that
times out falls back to a direct capture and successfully returns a frame,
yet the immediately following call (here hitting the generic exception
path with still no stored frame) returns `None` — so a successful
retrieval does not prevent a later no-image result. -/
theorem get_frame_counterexample :
    (get_frame ⟨none⟩ .empty (some onesImg)).1 = some onesImg ∧
    (get_frame (get_frame ⟨none⟩ .empty (some onesImg)).2 .err none).1 = none := by
  constructor <;> rfl

/-- C3 (amended): on a queue timeout `get_frame` returns the last frame
retrieved from the queue when one exists and otherwise the result of a
direct synchronous capture (which is not stored); once a frame has been
retrieved from the queue, `get_frame` never returns `None` and the stored
frame persists. -/
theorem get_frame_fallback (st : CapturerState) (q : QueueGet) (d : Option Image) :
    (∀ p, st.prevFrame = some p → q = .empty → (get_frame st q d).1 = some p) ∧
    (st.prevFrame = none → q = .empty →
      (get_frame st q d).1 = d ∧ (get_frame st q d).2 = st) ∧
    (st.prevFrame.isSome →
      (get_frame st q d).1.isSome ∧ (get_frame st q d).2.prevFrame.isSome) ∧
    (∀ f, q = .frame f →
      (get_frame st q d).1 = some f ∧ (get_frame st q d).2.prevFrame = some f) := by
  cases q <;> cases hst : st.prevFrame <;> simp_all [get_frame]

/-- C3 amended witness: with a stored frame, a timed-out call returns it. -/
theorem get_frame_fallback_witness :
    (get_frame ⟨some onesImg⟩ .empty none).1 = some onesImg :=
  (get_frame_fallback ⟨some onesImg⟩ .empty none).1 onesImg rfl rfl

/-- C9: `stop_censoring` before any start is a no-op leaving the
application state (running flag, overlay visibility and the rest)
unchanged, and calling it twice in a row is the same as calling it once. -/
theorem stop_censoring_idempotent (s : AppState) :
    (s.isRunning = false → stop_censoring s = s) ∧
    stop_censoring (stop_censoring s) = stop_censoring s := by
  constructor
  · intro h
    simp [stop_censoring, h]
  · by_cases h : s.isRunning <;> simp [stop_censoring, h]

/-- C9 witness: stopping a never-started application changes nothing. -/
theorem stop_censoring_idempotent_witness :
    stop_censoring
      { isRunning := false, overlay := initialOverlay, statusText := "⭕ 대기 중",
        startEnabled := true, stopEnabled := false } =
      { isRunning := false, overlay := initialOverlay, statusText := "⭕ 대기 중",
        startEnabled := true, stopEnabled := false } :=
  (stop_censoring_idempotent _).1 rfl

/-- C8: with the overlay not yet visible, `show` succeeds exactly when
native window creation succeeds; on a creation failure it returns the
failure result and leaves the overlay state (in particular the visible
and running flags) untouched; on success the overlay is visible and
running, and (with win32 available) the protection sequence has set
forced-topmost mode and started the topmost keeper before `show`
returned. -/
theorem show_overlay_success (createOk hasWin32 hookOk : Bool) (ov : OverlayState)
    (h : ov.isVisible = false) :
    ((showOverlay createOk hasWin32 hookOk ov).1 = some true ↔ createOk = true) ∧
    (createOk = false →
      (showOverlay createOk hasWin32 hookOk ov).1 = some false ∧
      (showOverlay createOk hasWin32 hookOk ov).2 = ov) ∧
    (createOk = true →
      (showOverlay createOk hasWin32 hookOk ov).2.isVisible = true ∧
      (showOverlay createOk hasWin32 hookOk ov).2.isRunning = true ∧
      (hasWin32 = true →
        (showOverlay createOk hasWin32 hookOk ov).2.forceTopmost = true ∧
        (showOverlay createOk hasWin32 hookOk ov).2.keeperRunning = true)) := by
  cases createOk <;> cases hasWin32 <;>
    simp [showOverlay, init_pygame, protectWindow, h]

/-- C8 witness: a failed window creation on a fresh overlay yields the
failure result. -/
theorem show_overlay_success_witness :
    (showOverlay false true true initialOverlay).1 = some false :=
  ((show_overlay_success false true true initialOverlay rfl).2.1 rfl).1

/-- C6: evaluation of a watchdog cycle with another window (handle 111)
in the foreground while the overlay owns handle 222.  The cycle does run
the full `_force_to_topmost` sequence and reasserts `HWND_TOPMOST`, and
the hook path's reassertion uses only non-activating calls — but the
watchdog's sequence contains `BringWindowToTop`, a call that activates a
top-level window, contradicting the requirement that the reassertion
never activates the overlay or steals input focus. -/
theorem topmost_keeper_activation_bug :
    topmostKeeperStep 222 111 = forceToTopmost 222 ∧
    (forceToTopmost 222).any (callAssertsTopmost 222) = true ∧
    (instantForceTopmost 222).any (callAssertsTopmost 222) = true ∧
    (instantForceTopmost 222).all (fun c => !(callActivates c)) = true ∧
    activationHookStep 222 true HCBT_ACTIVATE 111 = instantForceTopmost 222 ∧
    (forceToTopmost 222).any callActivates = true := by
  decide

/-- C10: `apply_mosaic` catches every internal failure and then returns
its input unchanged; the only failing strength is zero (the
`ZeroDivisionError` of `h // strength`), for which the input comes back
unmodified, and every nonzero strength runs the mosaic body to
completion. -/
theorem apply_mosaic_total (image : Image) (strength : Int) :
    (applyMosaicBody image strength = none → apply_mosaic image strength = image) ∧
    applyMosaicBody image 0 = none ∧
    apply_mosaic image 0 = image ∧
    (strength ≠ 0 → (applyMosaicBody image strength).isSome = true) := by
  have hzero : applyMosaicBody image 0 = none := by
    simp [applyMosaicBody, pyFloorDiv]
  have hcatch : applyMosaicBody image strength = none → apply_mosaic image strength = image := by
    intro h
    by_cases hs : image.size = 0 <;> simp [apply_mosaic, hs, h]
  refine ⟨hcatch, hzero, ?_, ?_⟩
  · by_cases hs : image.size = 0 <;> simp [apply_mosaic, hs, hzero]
  · intro hne
    simp [applyMosaicBody, pyFloorDiv, hne]

/-- C10 witness: strength 0 returns the test frame unchanged, and
strength 15 runs to completion. -/
theorem apply_mosaic_total_witness :
    apply_mosaic onesImg 0 = onesImg ∧ (applyMosaicBody onesImg 15).isSome = true :=
  ⟨(apply_mosaic_total onesImg 0).2.2.1, (apply_mosaic_total onesImg 15).2.2.2 (by decide)⟩

/-- C4: `apply_mosaic` always preserves the image's dimensions; a
zero-area region is returned unmodified; and for a non-empty region and a
nonzero strength the result is exactly the linear downscale to
`max 1 (dim // strength)` per axis followed by the nearest-neighbor
upscale back to `(w, h)`. -/
theorem apply_mosaic_dims (image : Image) (strength : Int) :
    ((apply_mosaic image strength).height = image.height ∧
     (apply_mosaic image strength).width = image.width) ∧
    (image.size = 0 → apply_mosaic image strength = image) ∧
    (image.size ≠ 0 → strength ≠ 0 →
      apply_mosaic image strength =
        cv2resize .nearest
          (cv2resize .linear image
            (max 1 (Int.fdiv image.width strength)).toNat
            (max 1 (Int.fdiv image.height strength)).toNat)
          image.width image.height) := by
  have hbody : strength ≠ 0 →
      applyMosaicBody image strength =
        some (cv2resize .nearest
          (cv2resize .linear image
            (max 1 (Int.fdiv image.width strength)).toNat
            (max 1 (Int.fdiv image.height strength)).toNat)
          image.width image.height) := by
    intro hne
    simp [applyMosaicBody, pyFloorDiv, hne]
  refine ⟨?_, ?_, ?_⟩
  · by_cases hs : image.size = 0
    · simp [apply_mosaic, hs]
    · by_cases hne : strength = 0
      · subst hne
        simp [apply_mosaic, hs, applyMosaicBody, pyFloorDiv]
      · simp [apply_mosaic, hs, hbody hne, cv2resize]
  · intro hs
    simp [apply_mosaic, hs]
  · intro hs hne
    simp [apply_mosaic, hs, hbody hne]

/-- C4 witness: mosaicking the 4×4 test frame at strength 15 keeps its
dimensions, and at strength 15 the pipeline equation holds. -/
theorem apply_mosaic_dims_witness :
    ((apply_mosaic onesImg 15).height = onesImg.height ∧
     (apply_mosaic onesImg 15).width = onesImg.width) ∧
    apply_mosaic onesImg 15 =
      cv2resize .nearest
        (cv2resize .linear onesImg
          (max 1 (Int.fdiv onesImg.width 15)).toNat
          (max 1 (Int.fdiv onesImg.height 15)).toNat)
        onesImg.width onesImg.height :=
  ⟨(apply_mosaic_dims onesImg 15).1,
   (apply_mosaic_dims onesImg 15).2.2 (by decide) (by decide)⟩

/-- A single detection step of the processing loop only touches pixels
inside the detection's bounding box. -/
theorem mosaicDetection_px_outside (acc : Image) (d : Detection) (s : Int) (i j c : Nat)
    (h : ¬ (d.y1 ≤ i ∧ i < d.y2 ∧ d.x1 ≤ j ∧ j < d.x2)) :
    (mosaicDetection acc d s).px i j c = acc.px i j c := by
  unfold mosaicDetection
  split_ifs with hr
  · simp only [writeRegion]
    split_ifs with hc
    · exact absurd ⟨by omega, by omega, by omega, by omega⟩ h
    · rfl
  · rfl

/-- C5: the frame handed to the overlay by one processing-loop iteration
agrees with the captured input frame at every pixel that lies outside the
bounding box of every detection whose class is in the target set — the
mosaic pass modifies pixels only inside target bounding boxes. -/
theorem process_frame_outside_targets (frame : Image) (dets : List Detection)
    (targets : List String) (s : Int) (i j c : Nat)
    (h : ∀ d ∈ dets, d.className ∈ targets →
          ¬ (d.y1 ≤ i ∧ i < d.y2 ∧ d.x1 ≤ j ∧ j < d.x2)) :
    (processFrame frame dets targets s).px i j c = frame.px i j c := by
  induction dets generalizing frame with
  | nil => rfl
  | cons d rest ih =>
    have hstep : processFrame frame (d :: rest) targets s =
        processFrame (if d.className ∈ targets then mosaicDetection frame d s else frame)
          rest targets s := rfl
    rw [hstep]
    by_cases hd : d.className ∈ targets
    · rw [if_pos hd,
        ih (mosaicDetection frame d s) (fun e he hm => h e (List.mem_cons_of_mem d he) hm)]
      exact mosaicDetection_px_outside frame d s i j c (h d (List.mem_cons_self d rest) hd)
    · rw [if_neg hd]
      exact ih frame (fun e he hm => h e (List.mem_cons_of_mem d he) hm)

/-- C5 witness: a target detection with box (1,1)-(3,3) leaves pixel
(0,0) of the 4×4 test frame unchanged. -/
theorem process_frame_outside_targets_witness :
    (processFrame onesImg [⟨"여성", 1, 1, 3, 3⟩] ["여성"] 15).px 0 0 0 = onesImg.px 0 0 0 :=
  process_frame_outside_targets onesImg [⟨"여성", 1, 1, 3, 3⟩] ["여성"] 15 0 0 0
    (by intro d hd hm
        simp only [List.mem_singleton] at hd
        subst hd
        decide)

/-- C1 counterexample: the region `(-1, 0, 2, 2)` overlaps the 4×4 test
frame (its columns -1..0 and rows 0..1 meet the frame), pixel (0,0) lies
inside the region clipped to frame bounds, yet the masking step leaves
that pixel at value 1 instead of zeroing it: the source skips every
region whose top-left corner fails the `x >= 0 and y >= 0` check, even
when the region partially overlaps the frame. -/
theorem exclusion_mask_counterexample :
    ((-1 : Int) < (onesImg.width : Int) ∧ (0 : Int) < -1 + 2 ∧
     (0 : Int) < (onesImg.height : Int) ∧ (0 : Int) < 0 + 2) ∧
    ((-1 : Int) ≤ 0 ∧ (0 : Int) < -1 + 2 ∧ (0 : Int) ≤ 0 ∧ (0 : Int) < 0 + 2 ∧
     0 < onesImg.width ∧ 0 < onesImg.height) ∧
    (maskExcludeRegions onesImg [(-1, 0, 2, 2)]).px 0 0 0 = 1 := by
  decide

/-- C1 (amended): an exclusion region whose top-left corner `(x, y)` lies
within the frame bounds has exactly the pixels of the region clipped to
the frame set to zero; a region whose top-left corner lies outside the
frame bounds — even one partially overlapping the frame — leaves the
frame entirely unchanged (and causes no error). -/
theorem exclusion_mask_clipped (img : Image) (x y w h : Int) (hw : 0 ≤ w) (hh : 0 ≤ h) :
    (0 ≤ x → 0 ≤ y → x < (img.width : Int) → y < (img.height : Int) →
      ∀ i j c : Nat,
        (maskRegion img (x, y, w, h)).px i j c =
          if (y ≤ (i : Int) ∧ (i : Int) < min (y + h) (img.height : Int) ∧
              x ≤ (j : Int) ∧ (j : Int) < min (x + w) (img.width : Int))
          then 0 else img.px i j c) ∧
    (∀ regions : List (Int × Int × Int × Int),
      (∀ r ∈ regions,
        ¬ (0 ≤ r.1 ∧ 0 ≤ r.2.1 ∧ r.1 < (img.width : Int) ∧ r.2.1 < (img.height : Int))) →
      maskExcludeRegions img regions = img) := by
  constructor
  · intro hx hy hxw hyh i j c
    have hguard : 0 ≤ x ∧ 0 ≤ y ∧ x < (img.width : Int) ∧ y < (img.height : Int) :=
      ⟨hx, hy, hxw, hyh⟩
    have e1 : sliceIdx img.height y = y.toNat := by
      unfold sliceIdx
      rw [if_neg (by omega)]
      omega
    have e2 : sliceIdx img.height (min (y + h) (img.height : Int)) =
        (min (y + h) (img.height : Int)).toNat := by
      unfold sliceIdx
      split_ifs <;> omega
    have e3 : sliceIdx img.width x = x.toNat := by
      unfold sliceIdx
      rw [if_neg (by omega)]
      omega
    have e4 : sliceIdx img.width (min (x + w) (img.width : Int)) =
        (min (x + w) (img.width : Int)).toNat := by
      unfold sliceIdx
      split_ifs <;> omega
    simp only [maskRegion, if_pos hguard]
    rw [e1, e2, e3, e4]
    exact if_congr (by omega) rfl rfl
  · intro regions hreg
    induction regions with
    | nil => rfl
    | cons r rest ih =>
      have hstep : maskExcludeRegions img (r :: rest) =
          maskExcludeRegions (maskRegion img r) rest := rfl
      have hr : maskRegion img r = img := by
        unfold maskRegion
        rw [if_neg (hreg r (List.mem_cons_self r rest))]
      rw [hstep, hr]
      exact ih (fun e he => hreg e (List.mem_cons_of_mem r he))

/-- C1 amended witness: the in-bounds region `(1, 1, 2, 2)` zeroes pixel
(1,1) of the 4×4 test frame. -/
theorem exclusion_mask_clipped_witness :
    (maskRegion onesImg (1, 1, 2, 2)).px 1 1 0 = 0 := by
  have h := (exclusion_mask_clipped onesImg 1 1 2 2 (by decide) (by decide)).1
    (by decide) (by decide) (by decide) (by decide) 1 1 0
  rw [h]
  decide

end Betachip
